import Mathlib

/-!
Shallow embedding of `src/gbcdk.py` (class `GbconnectedDk`), the fleet-diagnostics
utility: the version-check batch (`_create_doc`, `_write_data`, `_get_version`,
`version_check`), the local-SQL batch (`_get_query_local`, `query_local`) and the
remote-SQL batch (`_get_query_rds`, `query_rds`).

Modelling conventions:
- A CSV file is a `Table` = list of rows, each row a list of strings.
- Network / database effects are supplied as explicit environments: a web
  environment maps a target address to `none` (the session preparation or the
  diagnostics GET raised) or `some data`, where `data` is the list of
  string renderings of the elements returned by BeautifulSoup find_all applied
  to b tags; a SQL environment maps a credential attempt and a query to `none`
  (pd.read_sql raised) or `some table`.
- Python exceptions that escape a function are `Except.error ()`; a caught
  exception never appears in the result.
- Python string slicing `s[a:b]` (clamping, negative indices, never raising) is
  embedded literally as `pySlice`.
- The thread pool writes rows in completion order; counting and membership
  properties are order-insensitive, so the batch is embedded as a sequential
  fold over the roster.
-/

namespace Gbcdk

/-- One CSV row. -/
abbrev Row := List String

/-- A CSV file: a list of rows. -/
abbrev Table := List Row

/-- Resolution of one bound of a Python slice `s[a:b]` on a string of length
`len`: negative indices count from the end, both bounds clamp into `[0, len]`,
never raising. -/
def pyIdx (len : Nat) (i : Int) : Nat :=
  if i < 0 then ((len : Int) + i).toNat else min i.toNat len

/-- Python string slice `s[a:b]`: characters from index `pyIdx a` (inclusive) to
`pyIdx b` (exclusive); empty when the bounds cross. -/
def pySlice (s : String) (a b : Int) : String :=
  let cs := s.data
  let lo := pyIdx cs.length a
  let hi := pyIdx cs.length b
  String.mk ((cs.drop lo).take (hi - lo))

/-- Header row written by `_create_doc`: `['version', 'planta', 'ip']`. -/
def csv_header : Row := ["version", "planta", "ip"]

/-- Embeds `_create_doc`: opens the day's file in mode `'w'` (truncating whatever
was there) and writes the header row. -/
def create_doc (_file : Table) : Table := [csv_header]

/-- Embeds `_write_data`: opens the day's file in mode `'a'` and appends one row. -/
def write_data (file : Table) (text : Row) : Table := file ++ [text]

/-- Web environment for the version check: for a target address, `none` means
`_prepare_session` or the GET of `private/configuracionfabrica` raised; `some
data` means the page was fetched and `data` is the list of `str(el)` for the
elements `el` of `soup.find_all('b')`. -/
abbrev WebEnv := String → Option (List String)

/-- Embeds the `try` branch of `_get_version`: `ip[0]` is the address (raises on
an empty entry), the session is prepared and the page fetched, `planta =
str(data[1])` and `version = str(data[2])` (each raising `IndexError` when the
marker list is too short), and the written row is
`[version[38:-5], planta[11:-5], ip[0]]`. `none` means the branch raised. -/
def try_get_version (env : WebEnv) (ip : Row) : Option Row :=
  match ip with
  | [] => none
  | ip0 :: _ =>
    match env ip0 with
    | none => none
    | some data =>
      match data with
      | _ :: planta :: version :: _ =>
          some [pySlice version 38 (-5), pySlice planta 11 (-5), ip0]
      | _ => none

/-- Embeds `_get_version`: run the `try` branch; on any exception the `except`
branch builds `('ERROR', ip[1], ip[0])` — which itself raises when the entry has
no index 1 — and writes it. `.ok row` is the single row written for the target;
`.error ()` means the exception escaped the per-target handler and no row was
written. -/
def get_version (env : WebEnv) (ip : Row) : Except Unit Row :=
  match try_get_version env ip with
  | some row => .ok row
  | none =>
    match ip with
    | ip0 :: label :: _ => .ok ["ERROR", label, ip0]
    | _ => .error ()

/-- Rows appended to the day's artifact by one version-check batch: one row per
target whose handler completed, none for a target whose handler itself raised. -/
def version_check_rows (env : WebEnv) (roster : List Row) : Table :=
  roster.filterMap (fun ip => (get_version env ip).toOption)

/-- Processing of the roster by the worker pool: each target's handler appends
its row (if it produced one) to the day's file. -/
def run_targets (env : WebEnv) (file : Table) : List Row → Table
  | [] => file
  | ip :: rest =>
      run_targets env
        (match get_version env ip with
         | .ok row => write_data file row
         | .error _ => file) rest

/-- Embeds `version_check`: create the day's document fresh (truncating any
prior content), then process every roster entry. The result is the day's file
after the batch. -/
def version_check (env : WebEnv) (roster : List Row) (file : Table) : Table :=
  run_targets env (create_doc file) roster

theorem run_targets_eq (env : WebEnv) (roster : List Row) :
    ∀ file : Table, run_targets env file roster = file ++ version_check_rows env roster := by
  induction roster with
  | nil => intro file; simp [run_targets, version_check_rows]
  | cons ip rest ih =>
      intro file
      rw [run_targets]
      cases h : get_version env ip with
      | ok row =>
          rw [ih]
          simp [version_check_rows, List.filterMap_cons, h, Except.toOption, write_data]
      | error e =>
          rw [ih]
          simp [version_check_rows, List.filterMap_cons, h, Except.toOption]

theorem get_version_ok_of_len (env : WebEnv) (ip : Row) (h : 2 ≤ ip.length) :
    ∃ row, get_version env ip = .ok row := by
  match ip, h with
  | ip0 :: label :: rest, _ =>
    rw [get_version]
    cases htry : try_get_version env (ip0 :: label :: rest) with
    | some row => exact ⟨row, rfl⟩
    | none => exact ⟨["ERROR", label, ip0], rfl⟩

theorem version_check_rows_length (env : WebEnv) (roster : List Row)
    (h : ∀ e ∈ roster, 2 ≤ e.length) :
    (version_check_rows env roster).length = roster.length := by
  induction roster with
  | nil => rfl
  | cons ip rest ih =>
      obtain ⟨row, hrow⟩ := get_version_ok_of_len env ip (h ip (by simp))
      have hrest : ∀ e ∈ rest, 2 ≤ e.length := fun e he => h e (by simp [he])
      simp [version_check_rows, List.filterMap_cons, hrow, Except.toOption] at ih ⊢
      exact ih hrest

/-- The two credential sets tried by the local-SQL path: the `mysql` section's
`user`/`password` engine, then the `user_win`/`password_win` engine. -/
inductive Attempt where
  | primary
  | secondary
deriving BEq, DecidableEq, Repr

/-- SQL environment for one local target: for a credential attempt and a query,
`none` means `pd.read_sql` raised under that engine, `some t` the frame it
returned. -/
abbrev SqlEnv := Attempt → String → Option Table

/-- Embeds the `except` branch of `_get_query_local`: after printing the first
error, run the query once more on the `user_win` engine — this second
`pd.read_sql`, and the `planta[1]` lookup in its `to_csv` path, are not guarded
by any `try`, so their exceptions escape the function. `.ok (path, t)` is the
CSV write performed; `.error ()` means an exception escaped. -/
def local_fallback (env : SqlEnv) (planta : Row) (query : String) :
    Except Unit (String × Table) :=
  match env Attempt.secondary query with
  | none => .error ()
  | some t =>
    match planta with
    | _ :: label :: _ => .ok ("Local/" ++ label ++ ".csv", t)
    | _ => .error ()

/-- Embeds `_get_query_local`: `host = planta[0]` is read before the `try`
(raising on an empty entry), the query is attempted on the primary engine and
its frame written to `Local/{planta[1]}.csv`; any exception in the `try` enters
the fallback. The second component records the `pd.read_sql` attempts issued,
in order. -/
def get_query_local (env : SqlEnv) (planta : Row) (query : String) :
    Except Unit (String × Table) × List Attempt :=
  match planta with
  | [] => (.error (), [])
  | _host :: _ =>
    match env Attempt.primary query with
    | none => (local_fallback env planta query, [Attempt.primary, Attempt.secondary])
    | some t =>
      match planta with
      | _ :: label :: _ => (.ok ("Local/" ++ label ++ ".csv", t), [Attempt.primary])
      | _ => (local_fallback env planta query, [Attempt.primary, Attempt.secondary])

/-- Embeds `query_local`: fan the query out over the roster and collect the
workers' results with `list(executor.map(...))` — collecting the results
re-raises the first worker exception, so the batch result is `.error ()` as
soon as any target's handler escaped. -/
def query_local (env : Row → SqlEnv) (roster : List Row) (query : String) :
    Except Unit (List (String × Table)) :=
  roster.mapM (fun planta => (get_query_local (env planta) planta query).1)

/-- Embeds the statement built by `_get_query_rds`: `schema + query` where
`schema = f"SET search_path TO {planta};"` — note: no separator is inserted
between the semicolon and the query. -/
def rds_statement (planta query : String) : String :=
  "SET search_path TO " ++ planta ++ ";" ++ query

/-- Remote-SQL environment: for the full statement handed to `pd.read_sql`,
either the frame it returned or the text `str(e)` of the exception it raised. -/
abbrev RdsEnv := String → Except String Table

/-- Embeds `_get_query_rds`: on success write the frame to
`Historico/{planta}.csv`; on any exception build the frame
`{'Column1': ['ERROR'], 'Column2': [e]}` and write it to
`Historico/error_{planta}.csv`. The function is total: no exception escapes to
the caller. -/
def get_query_rds (env : RdsEnv) (planta query : String) : String × Table :=
  match env (rds_statement planta query) with
  | .ok t => ("Historico/" ++ planta ++ ".csv", t)
  | .error e => ("Historico/error_" ++ planta ++ ".csv", [["Column1", "Column2"], ["ERROR", e]])

/-- Embeds `query_rds`: fan the query out over the roster of schema names; every
target yields exactly one file write. -/
def query_rds (env : String → RdsEnv) (roster : List String) (query : String) :
    List (String × Table) :=
  roster.map (fun planta => get_query_rds (env planta) planta query)

/-- Claim C1, counterexample: the claim as stated fails on the code. For the
roster holding the single one-field entry `["10.0.0.1"]` and an environment in
which the session raises, the `except` branch of `_get_version` raises at
`ip[1]` before writing, so zero rows are appended while the roster has length
one. -/
theorem C1_counterexample :
    (version_check_rows (fun _ => none) [["10.0.0.1"]]).length ≠
      ([["10.0.0.1"]] : List Row).length := by
  decide

/-- Claim C1 (amended): for every roster all of whose entries expose both an
address and a label (at least two fields), the version-check batch produces the
header followed by exactly one appended row per roster entry — the number of
appended rows equals the roster length, no target is skipped and none yields
two rows. -/
theorem C1_rows_match_roster (env : WebEnv) (roster : List Row) (file : Table)
    (h : ∀ e ∈ roster, 2 ≤ e.length) :
    version_check env roster file = csv_header :: version_check_rows env roster ∧
    (version_check_rows env roster).length = roster.length := by
  constructor
  · unfold version_check create_doc
    rw [run_targets_eq]
    rfl
  · exact version_check_rows_length env roster h

/-- Claim C1, witness: the amended theorem applied to a concrete two-entry
roster under an environment in which every session raises. -/
theorem C1_witness :
    (∀ e ∈ ([["10.0.0.1", "PlantA"], ["10.0.0.2", "PlantB"]] : List Row), 2 ≤ e.length) ∧
    version_check (fun _ => none) [["10.0.0.1", "PlantA"], ["10.0.0.2", "PlantB"]] [] =
      csv_header ::
        version_check_rows (fun _ => none) [["10.0.0.1", "PlantA"], ["10.0.0.2", "PlantB"]] ∧
    (version_check_rows (fun _ => none)
        [["10.0.0.1", "PlantA"], ["10.0.0.2", "PlantB"]]).length = 2 :=
  ⟨by decide,
   (C1_rows_match_roster (fun _ => none) [["10.0.0.1", "PlantA"], ["10.0.0.2", "PlantB"]] []
      (by decide)).1,
   (C1_rows_match_roster (fun _ => none) [["10.0.0.1", "PlantA"], ["10.0.0.2", "PlantB"]] []
      (by decide)).2⟩

/-- Claim C3: a target (with address and label) whose session-open step raises
yields exactly one Failure row `["ERROR", label, address]` in the batch's
appended rows, and the rows contributed by the targets before and after it are
exactly what they would be on their own. -/
theorem C3_open_failure_isolated (env : WebEnv) (l1 l2 : List Row) (ip0 label : String)
    (rest : List String) (hopen : env ip0 = none) :
    version_check_rows env (l1 ++ (ip0 :: label :: rest) :: l2) =
      version_check_rows env l1 ++ ["ERROR", label, ip0] :: version_check_rows env l2 := by
  simp [version_check_rows, List.filterMap_append, List.filterMap_cons, get_version,
        try_get_version, hopen, Except.toOption]

/-- Claim C3, witness: the theorem applied to a roster of three concrete
targets in which only the middle one's session raises. -/
theorem C3_witness :
    version_check_rows
        (fun ip => if ip = "10.0.0.9" then none else some ["b0", "b1", "b2"])
        ([["10.0.0.1", "PlantA"]] ++ ("10.0.0.9" :: "PlantX" :: []) :: [["10.0.0.2", "PlantB"]]) =
      version_check_rows
        (fun ip => if ip = "10.0.0.9" then none else some ["b0", "b1", "b2"])
        [["10.0.0.1", "PlantA"]] ++
      ["ERROR", "PlantX", "10.0.0.9"] ::
        version_check_rows
          (fun ip => if ip = "10.0.0.9" then none else some ["b0", "b1", "b2"])
          [["10.0.0.2", "PlantB"]] :=
  C3_open_failure_isolated (fun ip => if ip = "10.0.0.9" then none else some ["b0", "b1", "b2"])
    [["10.0.0.1", "PlantA"]] [["10.0.0.2", "PlantB"]] "10.0.0.9" "PlantX" [] (by decide)

/-- Claim C6: when the fetched markup's marker list has elements at positions 1
and 2, the success row carries exactly the fixed-offset substrings
`version[38:-5]` and `planta[11:-5]` of those markers; when the marker list is
too short (fewer than three elements, so `data[1]` or `data[2]` raises), the
target's outcome is the Failure row `["ERROR", label, address]` — no exception
escapes and no corrupted success row is written. -/
theorem C6_marker_extraction (env : WebEnv) (ip0 label : String) (rest data : List String)
    (henv : env ip0 = some data) :
    (∀ d0 planta version drest, data = d0 :: planta :: version :: drest →
        get_version env (ip0 :: label :: rest) =
          Except.ok [pySlice version 38 (-5), pySlice planta 11 (-5), ip0]) ∧
    (data.length < 3 →
        get_version env (ip0 :: label :: rest) = Except.ok ["ERROR", label, ip0]) := by
  constructor
  · rintro d0 planta version drest rfl
    simp [get_version, try_get_version, henv]
  · intro hlen
    cases data with
    | nil => simp [get_version, try_get_version, henv]
    | cons a d1 =>
      cases d1 with
      | nil => simp [get_version, try_get_version, henv]
      | cons b d2 =>
        cases d2 with
        | nil => simp [get_version, try_get_version, henv]
        | cons c d3 =>
          simp only [List.length_cons] at hlen
          omega

/-- Claim C6, witness: the theorem applied once to markup with three marker
elements and once to markup with a single marker element. -/
theorem C6_witness :
    get_version (fun _ => some ["b0", "b1", "b2"]) ["10.0.0.1", "PlantA"] =
      Except.ok [pySlice "b2" 38 (-5), pySlice "b1" 11 (-5), "10.0.0.1"] ∧
    get_version (fun _ => some ["b0"]) ["10.0.0.1", "PlantA"] =
      Except.ok ["ERROR", "PlantA", "10.0.0.1"] :=
  ⟨(C6_marker_extraction (fun _ => some ["b0", "b1", "b2"]) "10.0.0.1" "PlantA" []
      ["b0", "b1", "b2"] rfl).1 "b0" "b1" "b2" [] rfl,
   (C6_marker_extraction (fun _ => some ["b0"]) "10.0.0.1" "PlantA" [] ["b0"] rfl).2
     (by decide)⟩

/-- Claim C8: running the version-check batch a second time on the same day with
the same roster overwrites the day's artifact — `_create_doc` opens the file in
mode `'w'` — so the second run's file equals the first run's file, and for a
roster of well-formed entries it holds exactly one header row plus one row per
roster entry, not double. -/
theorem C8_rerun_overwrites (env : WebEnv) (roster : List Row) (file : Table)
    (h : ∀ e ∈ roster, 2 ≤ e.length) :
    version_check env roster (version_check env roster file) = version_check env roster file ∧
    (version_check env roster (version_check env roster file)).length = roster.length + 1 := by
  have hv : ∀ f : Table,
      version_check env roster f = csv_header :: version_check_rows env roster := by
    intro f
    unfold version_check create_doc
    rw [run_targets_eq]
    rfl
  refine ⟨by rw [hv, hv], ?_⟩
  rw [hv]
  simp [version_check_rows_length env roster h]

/-- Claim C8, witness: the theorem applied to a concrete one-entry roster; the
rerun artifact has exactly two rows (header plus one outcome). -/
theorem C8_witness :
    version_check (fun _ => none) [["10.0.0.1", "PlantA"]]
        (version_check (fun _ => none) [["10.0.0.1", "PlantA"]] []) =
      version_check (fun _ => none) [["10.0.0.1", "PlantA"]] [] ∧
    (version_check (fun _ => none) [["10.0.0.1", "PlantA"]]
        (version_check (fun _ => none) [["10.0.0.1", "PlantA"]] [])).length = 2 :=
  ⟨(C8_rerun_overwrites (fun _ => none) [["10.0.0.1", "PlantA"]] [] (by decide)).1,
   (C8_rerun_overwrites (fun _ => none) [["10.0.0.1", "PlantA"]] [] (by decide)).2⟩

/-- Claim C10: a roster entry with no index 1 (length at most one) whose `try`
branch raises gets no outcome row at all: the `except` branch raises at `ip[1]`
before `_write_data`, so the exception escapes the per-target handler and the
batch's appended rows for that entry are empty. -/
theorem C10_malformed_entry_escapes (env : WebEnv) (ip : Row)
    (hshort : ip.length ≤ 1) (htry : try_get_version env ip = none) :
    get_version env ip = Except.error () ∧ version_check_rows env [ip] = [] := by
  cases ip with
  | nil =>
      exact ⟨by simp [get_version, htry],
             by simp [version_check_rows, get_version, htry, Except.toOption]⟩
  | cons a tl =>
    cases tl with
    | nil =>
        exact ⟨by simp [get_version, htry],
               by simp [version_check_rows, get_version, htry, Except.toOption]⟩
    | cons b tl2 =>
        simp only [List.length_cons] at hshort
        omega

/-- Claim C10, witness: the theorem applied to the one-element entry
`["10.0.0.1"]` under an environment in which the session raises. -/
theorem C10_witness :
    try_get_version (fun _ => none) ["10.0.0.1"] = none ∧
    get_version (fun _ => none) ["10.0.0.1"] = Except.error () ∧
    version_check_rows (fun _ => none) [["10.0.0.1"]] = [] :=
  ⟨rfl,
   (C10_malformed_entry_escapes (fun _ => none) ["10.0.0.1"] (by decide) rfl).1,
   (C10_malformed_entry_escapes (fun _ => none) ["10.0.0.1"] (by decide) rfl).2⟩

theorem query_local_cons_error (env : Row → SqlEnv) (p : Row) (rest : List Row)
    (query : String) (h : (get_query_local (env p) p query).1 = Except.error ()) :
    query_local env (p :: rest) query = Except.error () := by
  unfold query_local
  rw [List.mapM_cons, h]
  rfl

/-- Claim C2, counterexample: the claim as stated fails on the code. In the
local-SQL path, a target whose query fails under both the primary and the
secondary credentials makes `_get_query_local` raise (the second `pd.read_sql`
is outside any `try`), and collecting the batch results with
`list(executor.map(...))` re-raises that exception — here the batch aborts even
though the second target's query would succeed. -/
theorem C2_counterexample :
    (get_query_local (fun _ _ => none) ["10.0.0.1", "PlantA"] "SELECT 1").1 =
      Except.error () ∧
    query_local
        (fun planta _ _ =>
          if planta = ["10.0.0.1", "PlantA"] then none else some [["c"], ["1"]])
        [["10.0.0.1", "PlantA"], ["10.0.0.2", "PlantB"]] "SELECT 1" =
      Except.error () := by
  exact ⟨rfl, rfl⟩

/-- Claim C2 (amended): version-check and remote-SQL errors are contained at the
per-target boundary (see claims C3, C6 and C7), and a local-SQL primary failure
triggers exactly one secondary attempt; but when the secondary attempt also
fails, the exception propagates out of the per-target function and aborts the
batch's result collection. -/
theorem C2_exhausted_fallback_aborts (env : Row → SqlEnv) (p : Row) (rest : List Row)
    (query : String) (h0 : p ≠ [])
    (h1 : env p Attempt.primary query = none)
    (h2 : env p Attempt.secondary query = none) :
    (get_query_local (env p) p query).1 = Except.error () ∧
    (get_query_local (env p) p query).2 = [Attempt.primary, Attempt.secondary] ∧
    query_local env (p :: rest) query = Except.error () := by
  match p, h0 with
  | host :: ptail, _ =>
    have hg : get_query_local (env (host :: ptail)) (host :: ptail) query =
        (Except.error (), [Attempt.primary, Attempt.secondary]) := by
      simp [get_query_local, local_fallback, h1, h2]
    exact ⟨by rw [hg], by rw [hg],
           query_local_cons_error env (host :: ptail) rest query (by rw [hg])⟩

/-- Claim C2, witness: the amended theorem applied to a concrete one-entry
roster under an environment in which both credential attempts fail. -/
theorem C2_witness :
    (get_query_local (fun _ _ => none) ["10.0.0.1", "PlantA"] "SELECT 1").1 =
      Except.error () ∧
    (get_query_local (fun _ _ => none) ["10.0.0.1", "PlantA"] "SELECT 1").2 =
      [Attempt.primary, Attempt.secondary] ∧
    query_local (fun _ _ _ => none) [["10.0.0.1", "PlantA"]] "SELECT 1" =
      Except.error () :=
  C2_exhausted_fallback_aborts (fun _ _ _ => none) ["10.0.0.1", "PlantA"] [] "SELECT 1"
    (by decide) rfl rfl

/-- Claim C4: for a target with address and label whose query fails under the
primary credentials and succeeds under the secondary, the artifact written for
that target is `Local/{label}.csv` holding the secondary attempt's frame, and
the attempt trace is exactly one primary attempt followed by exactly one
secondary (fallback) attempt — never zero, never more than one. -/
theorem C4_secondary_result_recorded (env : SqlEnv) (host label : String)
    (rest : List String) (query : String) (t : Table)
    (h1 : env Attempt.primary query = none)
    (h2 : env Attempt.secondary query = some t) :
    (get_query_local env (host :: label :: rest) query).1 =
      Except.ok ("Local/" ++ label ++ ".csv", t) ∧
    (get_query_local env (host :: label :: rest) query).2 =
      [Attempt.primary, Attempt.secondary] ∧
    ((get_query_local env (host :: label :: rest) query).2).count Attempt.secondary = 1 := by
  have hg : get_query_local env (host :: label :: rest) query =
      (Except.ok ("Local/" ++ label ++ ".csv", t), [Attempt.primary, Attempt.secondary]) := by
    simp [get_query_local, local_fallback, h1, h2]
  exact ⟨by rw [hg], by rw [hg], by rw [hg]; rfl⟩

/-- Claim C4, witness: the theorem applied to a concrete target whose primary
attempt fails and whose secondary attempt returns a one-row frame. -/
theorem C4_witness :
    (get_query_local
        (fun a _ => match a with
          | Attempt.primary => none
          | Attempt.secondary => some [["c"], ["1"]])
        ["10.0.0.1", "PlantA"] "SELECT 1").1 =
      Except.ok ("Local/" ++ "PlantA" ++ ".csv", [["c"], ["1"]]) ∧
    (get_query_local
        (fun a _ => match a with
          | Attempt.primary => none
          | Attempt.secondary => some [["c"], ["1"]])
        ["10.0.0.1", "PlantA"] "SELECT 1").2 =
      [Attempt.primary, Attempt.secondary] ∧
    ((get_query_local
        (fun a _ => match a with
          | Attempt.primary => none
          | Attempt.secondary => some [["c"], ["1"]])
        ["10.0.0.1", "PlantA"] "SELECT 1").2).count Attempt.secondary = 1 :=
  C4_secondary_result_recorded
    (fun a _ => match a with
      | Attempt.primary => none
      | Attempt.secondary => some [["c"], ["1"]])
    "10.0.0.1" "PlantA" [] "SELECT 1" [["c"], ["1"]] rfl rfl

/-- Claim C5, counterexample: the claim as stated fails on the code. The
statement handed to the engine for target `siteA` and query `SELECT 1` is
`SET search_path TO siteA;SELECT 1` — the code concatenates `schema + query`
with no separator — which differs from the claimed
`SET search_path TO siteA; SELECT 1` (space after the semicolon). -/
theorem C5_counterexample :
    rds_statement "siteA" "SELECT 1" = "SET search_path TO siteA;SELECT 1" ∧
    rds_statement "siteA" "SELECT 1" ≠ "SET search_path TO siteA; SELECT 1" := by
  refine ⟨rfl, ?_⟩
  decide

/-- Claim C5 (amended): for target `siteA` and query `SELECT 1` the statement
handed to the engine is exactly `SET search_path TO siteA;SELECT 1` (no space
after the semicolon), and on success the returned frame is written to
`Historico/siteA.csv`. -/
theorem C5_rds_statement_and_artifact (env : RdsEnv) (t : Table)
    (h : env "SET search_path TO siteA;SELECT 1" = Except.ok t) :
    rds_statement "siteA" "SELECT 1" = "SET search_path TO siteA;SELECT 1" ∧
    get_query_rds env "siteA" "SELECT 1" = ("Historico/siteA.csv", t) := by
  have hs : rds_statement "siteA" "SELECT 1" = "SET search_path TO siteA;SELECT 1" := rfl
  refine ⟨hs, ?_⟩
  simp only [get_query_rds, hs, h]
  rfl

/-- Claim C5, witness: the amended theorem applied to an environment returning a
one-row frame for the executed statement. -/
theorem C5_witness :
    get_query_rds (fun _ => Except.ok [["1"]]) "siteA" "SELECT 1" =
      ("Historico/siteA.csv", [["1"]]) :=
  (C5_rds_statement_and_artifact (fun _ => Except.ok [["1"]]) [["1"]] rfl).2

/-- Claim C7: for every remote-SQL target and query whose execution raises, no
exception reaches the caller (`get_query_rds` is total); the outcome is a write
of the dedicated error artifact `Historico/error_{target}.csv` holding the
header `Column1, Column2` and the row `ERROR, e` with the error's text. -/
theorem C7_error_artifact (env : RdsEnv) (planta query e : String)
    (h : env (rds_statement planta query) = Except.error e) :
    get_query_rds env planta query =
      ("Historico/error_" ++ planta ++ ".csv", [["Column1", "Column2"], ["ERROR", e]]) := by
  simp only [get_query_rds, h]

/-- Claim C7, witness: the theorem applied to a concrete failing environment. -/
theorem C7_witness :
    get_query_rds (fun _ => Except.error "boom") "siteA" "SELECT 1" =
      ("Historico/error_" ++ "siteA" ++ ".csv", [["Column1", "Column2"], ["ERROR", "boom"]]) :=
  C7_error_artifact (fun _ => Except.error "boom") "siteA" "SELECT 1" "boom" rfl

end Gbcdk
